import Mathlib

/-!
# Verification of the fabric control-plane core

A shallow embedding, in Lean 4, of the parts of the `fabric` repository that
the specification's claims are about:

* the transwarp wire codec and dispatch helpers
  (`router/xlink_transwarp/message.go`);
* the raft controller's `Dispatch` and `Join` operations
  (`controller/raft/raft.go`);
* the trace `ChannelPeekHandler` toggle logic
  (`trace/channel_peekhandler.go`).

Bytes are modelled as `Nat` (well-formedness predicates record the `< 256`
bound where it matters), Go `int32` as `Int` with explicit two's-complement
conversion, and Go `uint16` coercions as `% 65536`.  Fallible Go functions
return an explicit result type; the out-of-range slice in `decodeMessage`
(a Go runtime panic) is modelled as a dedicated `panic` outcome so that the
partiality of decoding is visible.
-/

namespace Transwarp

/-! ## Wire format constants (`message.go`) -/

/-- `var magicV1 = []byte{0x01, 0x02, 0x02, 0x00}` -/
def magicV1 : List Nat := [0x01, 0x02, 0x02, 0x00]

/-- `const messageSectionLength = 15` -/
def messageSectionLength : Nat := 15

/-- `const mss = 1472` -/
def mss : Nat := 1472

/-- Message type constants: `Hello = 0, Ping = 1, Payload = 2, Acknowledgement = 3`.
Go's `messageType` is a `uint8`-based type, so we keep it as `Nat`. -/
def Hello : Nat := 0

def Ping : Nat := 1

def Payload : Nat := 2

def Acknowledgement : Nat := 3

/-! ## The `message` struct -/

/-- The `message` struct of `message.go`.  `sequence` is a Go `int32`,
`fragment`/`ofFragments`/`messageType` are `uint8`, the two lengths are
`uint16`, and `payload` is a byte slice. -/
structure message where
  sequence : Int
  fragment : Nat
  ofFragments : Nat
  messageType : Nat
  headersLength : Nat
  payloadLength : Nat
  payload : List Nat
deriving DecidableEq, Repr

/-- Machine-width well-formedness of a `message` value: each field fits the
Go type it is declared with. -/
def message.wf (m : message) : Prop :=
  -(2 ^ 31) ≤ m.sequence ∧ m.sequence < 2 ^ 31 ∧
    m.fragment < 256 ∧ m.ofFragments < 256 ∧ m.messageType < 256 ∧
    m.headersLength < 65536 ∧ m.payloadLength < 65536 ∧
    ∀ b ∈ m.payload, b < 256

instance (m : message) : Decidable m.wf := by
  unfold message.wf; infer_instance

/-! ## Little-endian integer conversions

`binary.Write(..., binary.LittleEndian, x)` and the `readInt32`/`readUint16`
helpers of `message.go`. -/

/-- The four little-endian bytes of a Go `int32` (two's complement). -/
def int32ToBytesLE (s : Int) : List Nat :=
  let n := (s % (2 ^ 32 : Int)).toNat
  [n % 256, n / 256 % 256, n / 65536 % 256, n / 16777216 % 256]

/-- The two little-endian bytes of a Go `uint16`. -/
def uint16ToBytesLE (n : Nat) : List Nat :=
  [n % 256, n / 256 % 256]

/-- Reassemble a Go `int32` from four little-endian bytes. -/
def toInt32LE (b0 b1 b2 b3 : Nat) : Int :=
  let n := b0 + 256 * b1 + 65536 * b2 + 16777216 * b3
  if n < 2 ^ 31 then (n : Int) else (n : Int) - 2 ^ 32

/-- `readInt32(data)`: `binary.Read` of an `int32` consumes the first four
bytes of the buffer and fails only when fewer than four are available. -/
def readInt32 (data : List Nat) : Option Int :=
  match data with
  | b0 :: b1 :: b2 :: b3 :: _ => some (toInt32LE b0 b1 b2 b3)
  | _ => none

/-- `readUint16(data)`: `binary.Read` of a `uint16` consumes the first two
bytes of the buffer and fails only when fewer than two are available. -/
def readUint16 (data : List Nat) : Option Nat :=
  match data with
  | b0 :: b1 :: _ => some (b0 + 256 * b1)
  | _ => none

/-! ## Encoding (`encodeMessage`) -/

/-- `encodeMessage(m)`: magic, little-endian `sequence`, the three single
bytes, a zero `headersLength`, `uint16(len(m.payload))`, then the payload.
Fails with "message too long" when the frame exceeds `mss` bytes. -/
def encodeMessage (m : message) : Except String (List Nat) :=
  let data :=
    magicV1 ++ int32ToBytesLE m.sequence ++
      [m.fragment, m.ofFragments, m.messageType] ++
      uint16ToBytesLE 0 ++ uint16ToBytesLE (m.payload.length % 65536) ++
      m.payload
  if data.length > mss then
    Except.error "message too long"
  else
    Except.ok data

/-! ## Decoding (`decodeMessage`) -/

/-- Outcome of `decodeMessage`: a decoded message, one of the explicit error
returns, or the Go runtime panic raised by the unguarded payload slice
`data[15+headersLength : 15+headersLength+payloadLength]`. -/
inductive DecodeResult where
  | ok : message → DecodeResult
  | protocolError : String → DecodeResult
  | panic : DecodeResult
deriving DecidableEq, Repr

/-- `decodeMessage(data)`.  The 15 header bytes are matched structurally
(`len(data) < messageSectionLength` is exactly the failure of that match);
the magic loop, the `headersLength != 0` check and the payload slice follow
the source.  Note that the source never assigns `m.payloadLength`, so the
decoded message carries the struct's zero value there. -/
def decodeMessage (data : List Nat) : DecodeResult :=
  match data with
  | b0 :: b1 :: b2 :: b3 :: b4 :: b5 :: b6 :: b7 :: b8 :: b9 :: b10 ::
      b11 :: b12 :: b13 :: b14 :: rest =>
    if [b0, b1, b2, b3] ≠ magicV1 then
      DecodeResult.protocolError "bad magic"
    else
      let sequence := toInt32LE b4 b5 b6 b7
      let headersLength := b11 + 256 * b12
      if headersLength ≠ 0 then
        DecodeResult.protocolError "headers error"
      else
        let payloadLength := b13 + 256 * b14
        if payloadLength ≤ rest.length then
          DecodeResult.ok
            { sequence := sequence
              fragment := b8
              ofFragments := b9
              messageType := b10
              headersLength := headersLength
              payloadLength := 0
              payload := rest.take payloadLength }
        else
          DecodeResult.panic
  | _ => DecodeResult.protocolError "short read"

/-! ## Dispatch helpers (`handleHello`, `handleMessage`)

The socket and peer-address arguments of the Go functions are used only to
format error messages and are forwarded unchanged to the callbacks, so they
are elided here; the outcome records whether the handler callback fired and
with which arguments. -/

/-- Outcome of `handleHello`: either `handler.HandleHello` was invoked with
the identity token (the message payload), or an error was returned. -/
inductive HelloDispatch where
  | callback : List Nat → HelloDispatch
  | error : String → HelloDispatch
deriving DecidableEq, Repr

/-- `handleHello(m, conn, peer, handler)` for a non-nil message. -/
def handleHello (m : message) : HelloDispatch :=
  if m.messageType = Hello then
    if m.sequence ≠ -1 then
      HelloDispatch.error "hello expects sequence -1"
    else if m.fragment ≠ 0 ∨ m.ofFragments ≠ 1 then
      HelloDispatch.error "hello expects single fragment"
    else
      HelloDispatch.callback m.payload
  else
    HelloDispatch.error "expected hello"

/-- Outcome of `handleMessage`: either `handler.HandlePing` was invoked with
`(sequence, replyFor)`, or an error was returned. -/
inductive PingDispatch where
  | callback : Int → Int → PingDispatch
  | error : String → PingDispatch
deriving DecidableEq, Repr

/-- `handleMessage(m, conn, peer, handler)`. -/
def handleMessage (m : message) : PingDispatch :=
  if m.messageType = Ping then
    if m.fragment ≠ 0 ∨ m.ofFragments ≠ 1 then
      PingDispatch.error "ping expects single fragment"
    else
      match readInt32 m.payload with
      | some replyFor => PingDispatch.callback m.sequence replyFor
      | none => PingDispatch.error "ping expects replyFor in payload"
  else
    PingDispatch.error "unexpected message type"

/-- The message `writeHello` builds before encoding: sequence `-1`, single
fragment, type `Hello`, the identity token as payload. -/
def writeHelloMessage (token : List Nat) : message :=
  { sequence := -1
    fragment := 0
    ofFragments := 1
    messageType := Hello
    headersLength := 0
    payloadLength := token.length % 65536
    payload := token }

end Transwarp

namespace RaftController

/-! ## The raft controller (`controller/raft/raft.go`)

`Dispatch` and `Join` interact with external collaborators (the hashicorp
raft instance, the mesh, the command's own methods).  Those collaborators
are modelled as oracle values supplied up front: the controller code under
verification is the branching logic of `raft.go`, reproduced faithfully;
the oracles say what each external call would return. -/

/-- A `command.Command` as `Dispatch` sees it: whether it implements the
optional `Validatable` interface (and what `Validate()` returns), and what
`Encode()` returns. -/
structure Command where
  validatable : Bool
  validateResult : Option String
  encodeResult : Except String (List Nat)

/-- Reply content types used by the dispatch RPC (modelled as an enum of the
cases `Dispatch` distinguishes). -/
inductive ReplyType where
  | successResponse
  | errorResponseApiError : String → ReplyType
  | errorResponseRaw : String → ReplyType
  | unexpected : Nat → ReplyType

/-- Oracle for the external calls `Dispatch` can make: the local raft
state, peer connection, the request/reply exchange, and the local apply. -/
structure DispatchWorld where
  isLeader : Bool
  connectPeerResult : Except String Unit
  sendForReplyResult : Except String ReplyType
  applyResult : Except String Unit

/-- Externally visible interactions of one `Dispatch` call, in order. -/
inductive Effect where
  | encoded
  | appliedToLog
  | forwardedToLeader
deriving DecidableEq, Repr

/-- Errors `Dispatch` can return. -/
inductive DispatchError where
  | validationFailed : String → DispatchError
  | encodeFailed : String → DispatchError
  | connectFailed : String → DispatchError
  | sendFailed : String → DispatchError
  | applyFailed : String → DispatchError
  | remoteApiError : String → DispatchError
  | remoteRawError : String → DispatchError
  | unexpectedResponseType : Nat → DispatchError
deriving DecidableEq, Repr

/-- The body of `Dispatch` after the `Validatable` check: the local apply
path when leader (encode, then `ApplyWithTimeout`), otherwise the
forward-to-leader path (connect, encode, send-for-reply, interpret the
reply's content type). -/
def DispatchAfterValidation (w : DispatchWorld) (cmd : Command) :
    Except DispatchError Unit × List Effect :=
  if w.isLeader then
    match cmd.encodeResult with
    | Except.error e => (Except.error (DispatchError.encodeFailed e), [Effect.encoded])
    | Except.ok _ =>
      match w.applyResult with
      | Except.error e =>
        (Except.error (DispatchError.applyFailed e), [Effect.encoded, Effect.appliedToLog])
      | Except.ok _ => (Except.ok (), [Effect.encoded, Effect.appliedToLog])
  else
    match w.connectPeerResult with
    | Except.error e => (Except.error (DispatchError.connectFailed e), [])
    | Except.ok _ =>
      match cmd.encodeResult with
      | Except.error e => (Except.error (DispatchError.encodeFailed e), [Effect.encoded])
      | Except.ok _ =>
        match w.sendForReplyResult with
        | Except.error e =>
          (Except.error (DispatchError.sendFailed e),
            [Effect.encoded, Effect.forwardedToLeader])
        | Except.ok ReplyType.successResponse =>
          (Except.ok (), [Effect.encoded, Effect.forwardedToLeader])
        | Except.ok (ReplyType.errorResponseApiError e) =>
          (Except.error (DispatchError.remoteApiError e),
            [Effect.encoded, Effect.forwardedToLeader])
        | Except.ok (ReplyType.errorResponseRaw e) =>
          (Except.error (DispatchError.remoteRawError e),
            [Effect.encoded, Effect.forwardedToLeader])
        | Except.ok (ReplyType.unexpected t) =>
          (Except.error (DispatchError.unexpectedResponseType t),
            [Effect.encoded, Effect.forwardedToLeader])

/-- `Controller.Dispatch(cmd)`: validation first, then either the local
apply path (leader) or the forward-to-leader path, mirroring `raft.go`
lines 95-139.  The effect trace records every log interaction. -/
def Dispatch (w : DispatchWorld) (cmd : Command) :
    Except DispatchError Unit × List Effect :=
  if cmd.validatable then
    match cmd.validateResult with
    | some e => (Except.error (DispatchError.validationFailed e), [])
    | none => DispatchAfterValidation w cmd
  else
    DispatchAfterValidation w cmd

/-! ## Cluster membership: `Controller.Join` -/

/-- `raft.ServerSuffrage` as used by `raft.go` (hashicorp raft also has
`Staging`, which this code never produces). -/
inductive Suffrage where
  | voter
  | nonvoter
deriving DecidableEq, Repr

/-- A `raft.Server` entry accumulated in `Controller.servers`. -/
structure Server where
  id : String
  addr : String
  suffrage : Suffrage
deriving DecidableEq, Repr

/-- A `JoinRequest`. -/
structure JoinRequest where
  id : String
  addr : String
  isVoter : Bool
deriving DecidableEq, Repr

/-- The controller state `Join` reads and writes, together with the two
oracle inputs it consults: `raftLastIndex` models `GetRaft().LastIndex()`
and `bootstrapError` the outcome of `BootstrapCluster(...).Error()`. -/
structure JoinState where
  bootstrapped : Bool
  servers : List Server
  minClusterSize : Nat
  raftLastIndex : Nat
  bootstrapError : Option String
deriving DecidableEq, Repr

/-- Outcome of one `Join` call. -/
inductive JoinResult where
  /-- One of the two `errors.Errorf` validation returns. -/
  | invalidRequest : String → JoinResult
  /-- The call was routed to `HandleJoin`, the live membership-change path
  (implemented outside `raft.go`). -/
  | handledAsMembershipChange : JoinResult
  /-- The request was appended to the pending list without bootstrapping. -/
  | accumulated : JoinResult
  /-- The request was appended and `BootstrapCluster` was invoked
  successfully. -/
  | bootstrapped : JoinResult
  /-- `BootstrapCluster` was invoked and failed. -/
  | bootstrapFailed : String → JoinResult
deriving DecidableEq, Repr

/-- Number of accumulated servers whose suffrage is `Voter`
(the `votingCount` loop of `Join`). -/
def votingCount (servers : List Server) : Nat :=
  (servers.filter (fun s => s.suffrage = Suffrage.voter)).length

/-- `Controller.Join(req)`, `raft.go` lines 279-322: validation, the
already-bootstrapped test, suffrage assignment (note the source maps
`IsVoter: true` to `raft.Nonvoter`), accumulation, and the conditional
one-time bootstrap. -/
def Join (s : JoinState) (req : JoinRequest) : JoinState × JoinResult :=
  if req.id = "" then
    (s, JoinResult.invalidRequest "invalid server id")
  else if req.addr = "" then
    (s, JoinResult.invalidRequest "invalid server addr")
  else if s.bootstrapped ∨ s.raftLastIndex > 0 then
    (s, JoinResult.handledAsMembershipChange)
  else
    let suffrage := if req.isVoter then Suffrage.nonvoter else Suffrage.voter
    let servers := s.servers ++ [⟨req.id, req.addr, suffrage⟩]
    if votingCount servers ≥ s.minClusterSize then
      match s.bootstrapError with
      | some e => ({ s with servers := servers }, JoinResult.bootstrapFailed e)
      | none => ({ s with servers := servers, bootstrapped := true }, JoinResult.bootstrapped)
    else
      ({ s with servers := servers }, JoinResult.accumulated)

end RaftController

namespace Trace

/-! ## `trace/channel_peekhandler.go` -/

/-- The trace source types the toggle logic distinguishes; `ToggleTracing`
only ever compares against `SourceTypePipe`. -/
inductive SourceType where
  | pipe
  | other
deriving DecidableEq, Repr

/-- The mutable state of a `ChannelPeekHandler` that the toggle logic
touches: the atomic `enabled` flag, plus the channel's logical name used
for matching. -/
structure ChannelPeekHandler where
  name : String
  enabled : Bool
deriving Repr

/-- `handler.IsEnabled()`. -/
def IsEnabled (h : ChannelPeekHandler) : Bool :=
  h.enabled

/-- `handler.enable(enabled)` — note the source ignores its argument and
stores `true` unconditionally. -/
def enable (h : ChannelPeekHandler) (enabled : Bool) : ChannelPeekHandler :=
  { h with enabled := true }

/-- The `ToggleApplyResult` sent back on the result channel (the formatted
explanation string is elided; its `matched`, old-state and new-state
ingredients are kept). -/
structure ToggleApplyResult where
  matched : Bool
  prevState : Bool
  nextState : Bool
deriving DecidableEq, Repr

/-- `handler.ToggleTracing(sourceType, matcher, enable, resultChan)`:
returns the updated handler and the result sent to `resultChan`. -/
def ToggleTracing (h : ChannelPeekHandler) (sourceType : SourceType)
    (matcher : String → Bool) (en : Bool) :
    ChannelPeekHandler × ToggleApplyResult :=
  let matched := sourceType = SourceType.pipe ∧ matcher h.name
  let prevState := IsEnabled h
  if matched then
    (enable h en, ⟨true, prevState, en⟩)
  else
    (h, ⟨false, prevState, prevState⟩)

/-- `handler.EnableTracing(...)` = `ToggleTracing(..., true, ...)`. -/
def EnableTracing (h : ChannelPeekHandler) (sourceType : SourceType)
    (matcher : String → Bool) : ChannelPeekHandler × ToggleApplyResult :=
  ToggleTracing h sourceType matcher true

/-- `handler.DisableTracing(...)` = `ToggleTracing(..., false, ...)`. -/
def DisableTracing (h : ChannelPeekHandler) (sourceType : SourceType)
    (matcher : String → Bool) : ChannelPeekHandler × ToggleApplyResult :=
  ToggleTracing h sourceType matcher false

end Trace

/-! ## Field accessors on raw buffers, used to state decoding claims -/

namespace Transwarp

/-- The headers-length field a buffer declares at offsets 11-12
(little-endian `uint16`). -/
def headersField (data : List Nat) : Nat :=
  data.getD 11 0 + 256 * data.getD 12 0

/-- The payload-length field a buffer declares at offsets 13-14
(little-endian `uint16`). -/
def payloadField (data : List Nat) : Nat :=
  data.getD 13 0 + 256 * data.getD 14 0

/-! ## Helper lemmas -/

/-- The frame built by `encodeMessage` is the 15-byte header followed by the
payload. -/
theorem encodeData_length (m : message) :
    (magicV1 ++ int32ToBytesLE m.sequence ++
        [m.fragment, m.ofFragments, m.messageType] ++
        uint16ToBytesLE 0 ++ uint16ToBytesLE (m.payload.length % 65536) ++
        m.payload).length = 15 + m.payload.length := by
  simp [magicV1, int32ToBytesLE, uint16ToBytesLE]
  omega

/-- Below the size bound, `encodeMessage` succeeds and returns exactly the
frame it assembled. -/
theorem encodeMessage_ok (m : message) (hlen : m.payload.length ≤ 1457) :
    encodeMessage m =
      Except.ok
        (magicV1 ++ int32ToBytesLE m.sequence ++
          [m.fragment, m.ofFragments, m.messageType] ++
          uint16ToBytesLE 0 ++ uint16ToBytesLE (m.payload.length % 65536) ++
          m.payload) := by
  unfold encodeMessage
  rw [if_neg]
  rw [encodeData_length m]
  simp [mss]
  omega

/-- Reassembling the four little-endian bytes of an in-range `int32`
recovers it. -/
theorem toInt32LE_of_bytes (s : Int) (h1 : -(2 ^ 31) ≤ s) (h2 : s < 2 ^ 31) :
    toInt32LE ((s % (2 ^ 32 : Int)).toNat % 256)
        ((s % (2 ^ 32 : Int)).toNat / 256 % 256)
        ((s % (2 ^ 32 : Int)).toNat / 65536 % 256)
        ((s % (2 ^ 32 : Int)).toNat / 16777216 % 256) = s := by
  unfold toInt32LE
  dsimp only
  split <;> omega

/-- `decodeMessage` returns the "short read" error on every buffer shorter
than the fixed message section. -/
theorem decodeMessage_short (b : List Nat) (h : b.length < 15) :
    decodeMessage b = DecodeResult.protocolError "short read" := by
  rcases b with _ | ⟨a0, b⟩
  · rfl
  rcases b with _ | ⟨a1, b⟩
  · rfl
  rcases b with _ | ⟨a2, b⟩
  · rfl
  rcases b with _ | ⟨a3, b⟩
  · rfl
  rcases b with _ | ⟨a4, b⟩
  · rfl
  rcases b with _ | ⟨a5, b⟩
  · rfl
  rcases b with _ | ⟨a6, b⟩
  · rfl
  rcases b with _ | ⟨a7, b⟩
  · rfl
  rcases b with _ | ⟨a8, b⟩
  · rfl
  rcases b with _ | ⟨a9, b⟩
  · rfl
  rcases b with _ | ⟨a10, b⟩
  · rfl
  rcases b with _ | ⟨a11, b⟩
  · rfl
  rcases b with _ | ⟨a12, b⟩
  · rfl
  rcases b with _ | ⟨a13, b⟩
  · rfl
  rcases b with _ | ⟨a14, b⟩
  · rfl
  simp at h
  omega

/-- Decoding the frame assembled by `encodeMessage` recovers every field the
decoder assigns; `headersLength` decodes as the zero the encoder wrote and
`payloadLength` is left at the struct's zero value. -/
theorem decodeMessage_encodeFrame (m : message) (hwf : m.wf)
    (hlen : m.payload.length ≤ 1457) :
    decodeMessage
        (magicV1 ++ int32ToBytesLE m.sequence ++
          [m.fragment, m.ofFragments, m.messageType] ++
          uint16ToBytesLE 0 ++ uint16ToBytesLE (m.payload.length % 65536) ++
          m.payload) =
      DecodeResult.ok { m with headersLength := 0, payloadLength := 0 } := by
  obtain ⟨hs1, hs2, hf, ho, ht, hh, hp, hb⟩ := hwf
  have hseq := toInt32LE_of_bytes m.sequence hs1 hs2
  have hplen : (m.payload.length % 65536) % 256 +
      256 * ((m.payload.length % 65536) / 256 % 256) = m.payload.length := by
    omega
  simp only [magicV1, int32ToBytesLE, uint16ToBytesLE, List.cons_append,
    List.nil_append]
  simp only [decodeMessage]
  norm_num at hseq
  simp [magicV1, hseq, hplen]

end Transwarp

/-! ## The claims -/

open Transwarp RaftController Trace

/-- Claim C1: the spec says the cluster bootstraps exactly once, only after
`minClusterSize` voter-flagged join requests have accumulated.  The code
inverts the flag: a join with `IsVoter: true` is stored with `Nonvoter`
suffrage and never counts toward the bootstrap threshold, while a join with
`IsVoter: false` counts and (at `minClusterSize = 1`) bootstraps
immediately. -/
theorem claim_C1_voter_flag_inversion :
    (Join ⟨false, [], 1, 0, none⟩ ⟨"node1", "addr1", true⟩).1.bootstrapped = false ∧
      (Join ⟨false, [], 1, 0, none⟩ ⟨"node1", "addr1", true⟩).2 =
        JoinResult.accumulated ∧
      (Join ⟨false, [], 1, 0, none⟩ ⟨"node1", "addr1", false⟩).1.bootstrapped = true ∧
      (Join ⟨false, [], 1, 0, none⟩ ⟨"node1", "addr1", false⟩).2 =
        JoinResult.bootstrapped := by
  decide

/-- Claim C2, counterexample: the Hello message with payload "abc" has
`payloadLength = 3`, but decoding its encoding yields `payloadLength = 0`
(the decoder never assigns that field), so `decode(encode(m)) ≠ m`. -/
theorem claim_C2_counterexample :
    encodeMessage (writeHelloMessage [97, 98, 99]) =
        Except.ok [1, 2, 2, 0, 255, 255, 255, 255, 0, 1, 0, 0, 0, 3, 0, 97, 98, 99] ∧
      decodeMessage [1, 2, 2, 0, 255, 255, 255, 255, 0, 1, 0, 0, 0, 3, 0, 97, 98, 99] ≠
        DecodeResult.ok (writeHelloMessage [97, 98, 99]) :=
  ⟨rfl, by decide⟩

/-- Claim C2 (amended): for every machine-well-formed message whose payload
is at most 1457 bytes, decoding the encoding succeeds and recovers
`sequence`, `fragment`, `ofFragments`, `messageType` and `payload`; the
decoded `headersLength` is the zero the encoder wrote and the decoded
`payloadLength` is the struct's zero value, so the result equals `m` in
every field exactly when `m.headersLength = 0` and `m.payloadLength = 0`. -/
theorem claim_C2_roundtrip_amended (m : message) (hwf : m.wf)
    (hlen : m.payload.length ≤ 1457) :
    ∃ d, encodeMessage m = Except.ok d ∧
      decodeMessage d =
        DecodeResult.ok { m with headersLength := 0, payloadLength := 0 } :=
  ⟨_, encodeMessage_ok m hlen, decodeMessage_encodeFrame m hwf hlen⟩

/-- Witness for C2: the amended round trip evaluated on the Hello message
with payload "hi". -/
theorem claim_C2_witness :
    ∃ d, encodeMessage (writeHelloMessage [104, 105]) = Except.ok d ∧
      decodeMessage d =
        DecodeResult.ok
          { writeHelloMessage [104, 105] with headersLength := 0, payloadLength := 0 } :=
  claim_C2_roundtrip_amended (writeHelloMessage [104, 105]) (by decide) (by decide)

/-- Claim C3, counterexample: a decoded Ping whose payload has five bytes
(not exactly four) is not rejected; `binary.Read` consumes the first four
bytes and the ping callback fires with `replyFor = 1`. -/
theorem claim_C3_counterexample :
    decodeMessage [1, 2, 2, 0, 7, 0, 0, 0, 0, 1, 1, 0, 0, 5, 0, 1, 0, 0, 0, 9] =
        DecodeResult.ok
          { sequence := 7, fragment := 0, ofFragments := 1, messageType := Ping,
            headersLength := 0, payloadLength := 0, payload := [1, 0, 0, 0, 9] } ∧
      handleMessage
          { sequence := 7, fragment := 0, ofFragments := 1, messageType := Ping,
            headersLength := 0, payloadLength := 0, payload := [1, 0, 0, 0, 9] } =
        PingDispatch.callback 7 1 := by
  decide

/-- Claim C3 (amended): for a single-fragment Ping, `handleMessage` returns
an error without invoking the ping callback exactly when the payload has
fewer than four bytes; with four or more bytes the callback is invoked with
`replyFor` decoded from the first four payload bytes as a signed
little-endian int32 (extra bytes are ignored). -/
theorem claim_C3_ping_dispatch_amended (m : message) (hty : m.messageType = Ping)
    (hf : m.fragment = 0) (ho : m.ofFragments = 1) :
    (m.payload.length < 4 →
      handleMessage m = PingDispatch.error "ping expects replyFor in payload") ∧
    (∀ b0 b1 b2 b3 rest, m.payload = b0 :: b1 :: b2 :: b3 :: rest →
      handleMessage m = PingDispatch.callback m.sequence (toInt32LE b0 b1 b2 b3)) := by
  constructor
  · intro hlen
    unfold handleMessage
    rw [if_pos hty, if_neg (by simp [hf, ho])]
    rcases hp : m.payload with _ | ⟨b0, t⟩
    · rfl
    rcases t with _ | ⟨b1, t⟩
    · rfl
    rcases t with _ | ⟨b2, t⟩
    · rfl
    rcases t with _ | ⟨b3, t⟩
    · rfl
    rw [hp] at hlen
    simp at hlen
    omega
  · intro b0 b1 b2 b3 rest hp
    unfold handleMessage
    rw [if_pos hty, if_neg (by simp [hf, ho]), hp]
    rfl

/-- Witness for C3: the amended ping dispatch evaluated on a two-byte
payload (rejected) and on a four-byte payload (callback with the decoded
little-endian value). -/
theorem claim_C3_witness :
    handleMessage
        { sequence := 3, fragment := 0, ofFragments := 1, messageType := Ping,
          headersLength := 0, payloadLength := 0, payload := [1, 2] } =
      PingDispatch.error "ping expects replyFor in payload" ∧
    handleMessage
        { sequence := 3, fragment := 0, ofFragments := 1, messageType := Ping,
          headersLength := 0, payloadLength := 0, payload := [2, 0, 0, 0] } =
      PingDispatch.callback 3 (toInt32LE 2 0 0 0) :=
  ⟨(claim_C3_ping_dispatch_amended _ rfl rfl rfl).1 (by decide),
   (claim_C3_ping_dispatch_amended _ rfl rfl rfl).2 2 0 0 0 [] rfl⟩

/-- Claim C4: `decodeMessage` returns a protocol error on every buffer that
is shorter than 15 bytes, or whose first four bytes differ from the magic
prefix, or whose headers-length field at offsets 11-12 is nonzero. -/
theorem claim_C4_decode_rejects (b : List Nat)
    (h : b.length < 15 ∨ b.take 4 ≠ magicV1 ∨ headersField b ≠ 0) :
    ∃ e, decodeMessage b = DecodeResult.protocolError e := by
  by_cases hshort : b.length < 15
  · exact ⟨"short read", decodeMessage_short b hshort⟩
  rcases b with _ | ⟨a0, b⟩
  · simp at hshort
  rcases b with _ | ⟨a1, b⟩
  · simp at hshort
  rcases b with _ | ⟨a2, b⟩
  · simp at hshort
  rcases b with _ | ⟨a3, b⟩
  · simp at hshort
  rcases b with _ | ⟨a4, b⟩
  · simp at hshort
  rcases b with _ | ⟨a5, b⟩
  · simp at hshort
  rcases b with _ | ⟨a6, b⟩
  · simp at hshort
  rcases b with _ | ⟨a7, b⟩
  · simp at hshort
  rcases b with _ | ⟨a8, b⟩
  · simp at hshort
  rcases b with _ | ⟨a9, b⟩
  · simp at hshort
  rcases b with _ | ⟨a10, b⟩
  · simp at hshort
  rcases b with _ | ⟨a11, b⟩
  · simp at hshort
  rcases b with _ | ⟨a12, b⟩
  · simp at hshort
  rcases b with _ | ⟨a13, b⟩
  · simp at hshort
  rcases b with _ | ⟨a14, b⟩
  · simp at hshort
  by_cases hm : [a0, a1, a2, a3] = magicV1
  · by_cases hhdr : a11 + 256 * a12 = 0
    · exfalso
      rcases h with h | h | h
      · exact hshort h
      · exact h (by simpa [magicV1] using hm)
      · exact h (by simpa [headersField] using hhdr)
    · exact ⟨"headers error", by simp [decodeMessage, hm, hhdr]⟩
  · exact ⟨"bad magic", by simp [decodeMessage, hm]⟩

/-- Witness for C4: the three rejection conditions each evaluated on a
concrete buffer (short buffer, bad magic, nonzero headers length). -/
theorem claim_C4_witness :
    (∃ e, decodeMessage [1, 2] = DecodeResult.protocolError e) ∧
      (∃ e, decodeMessage [9, 9, 9, 9, 0, 0, 0, 0, 0, 1, 0, 0, 0, 0, 0] =
        DecodeResult.protocolError e) ∧
      (∃ e, decodeMessage [1, 2, 2, 0, 0, 0, 0, 0, 0, 1, 0, 1, 0, 0, 0] =
        DecodeResult.protocolError e) :=
  ⟨claim_C4_decode_rejects _ (Or.inl (by decide)),
   claim_C4_decode_rejects _ (Or.inr (Or.inl (by decide))),
   claim_C4_decode_rejects _ (Or.inr (Or.inr (by decide)))⟩

/-- Claim C5: `encodeMessage` fails exactly when the frame (15-byte header
plus payload) would exceed 1472 bytes, i.e. when the payload is longer than
1457 bytes; otherwise it returns the assembled frame. -/
theorem claim_C5_encode_size_bound (m : message) :
    (1457 < m.payload.length →
      encodeMessage m = Except.error "message too long") ∧
    (m.payload.length ≤ 1457 →
      encodeMessage m =
        Except.ok
          (magicV1 ++ int32ToBytesLE m.sequence ++
            [m.fragment, m.ofFragments, m.messageType] ++
            uint16ToBytesLE 0 ++ uint16ToBytesLE (m.payload.length % 65536) ++
            m.payload)) := by
  constructor
  · intro hlen
    unfold encodeMessage
    rw [if_pos (by rw [encodeData_length m]; simp [mss]; omega)]
  · exact encodeMessage_ok m

/-- Witness for C5: a 1458-byte payload is rejected and a one-byte payload
encodes to its 16-byte frame. -/
theorem claim_C5_witness :
    encodeMessage
        { sequence := 0, fragment := 0, ofFragments := 1, messageType := Payload,
          headersLength := 0, payloadLength := 1458,
          payload := List.replicate 1458 0 } =
      Except.error "message too long" ∧
    encodeMessage
        { sequence := 0, fragment := 0, ofFragments := 1, messageType := Payload,
          headersLength := 0, payloadLength := 1, payload := [5] } =
      Except.ok [1, 2, 2, 0, 0, 0, 0, 0, 0, 1, 2, 0, 0, 1, 0, 5] := by
  constructor
  · exact (claim_C5_encode_size_bound _).1
      (by simp only [List.length_replicate]; norm_num)
  · have h := (claim_C5_encode_size_bound
      { sequence := 0, fragment := 0, ofFragments := 1, messageType := Payload,
        headersLength := 0, payloadLength := 1, payload := [5] }).2 (by simp)
    rw [h]
    exact congrArg Except.ok (by decide)

/-- Claim C6, counterexample: a Hello with sequence `-1` and
`ofFragments = 1` but `fragment = 1` satisfies every acceptance condition
the claim lists, yet `handleHello` rejects it (the code also requires
`fragment = 0`). -/
theorem claim_C6_counterexample :
    handleHello
        { sequence := -1, fragment := 1, ofFragments := 1, messageType := Hello,
          headersLength := 0, payloadLength := 0, payload := [] } =
      HelloDispatch.error "hello expects single fragment" := by
  decide

/-- Claim C6 (amended): `handleHello` returns an error without invoking the
hello callback if the message is not of type Hello, or its sequence is not
`-1`, or it is not a single-fragment message (`fragment ≠ 0` or
`ofFragments ≠ 1`); otherwise it invokes the callback with the identity
token taken from the payload. -/
theorem claim_C6_hello_dispatch_amended (m : message) :
    (m.messageType ≠ Hello → handleHello m = HelloDispatch.error "expected hello") ∧
    (m.messageType = Hello → m.sequence ≠ -1 →
      handleHello m = HelloDispatch.error "hello expects sequence -1") ∧
    (m.messageType = Hello → m.sequence = -1 →
      (m.fragment ≠ 0 ∨ m.ofFragments ≠ 1) →
      handleHello m = HelloDispatch.error "hello expects single fragment") ∧
    (m.messageType = Hello → m.sequence = -1 → m.fragment = 0 → m.ofFragments = 1 →
      handleHello m = HelloDispatch.callback m.payload) := by
  refine ⟨?_, ?_, ?_, ?_⟩
  · intro h1
    unfold handleHello
    rw [if_neg h1]
  · intro h1 h2
    unfold handleHello
    rw [if_pos h1, if_pos h2]
  · intro h1 h2 h3
    unfold handleHello
    rw [if_pos h1, if_neg (by simp [h2]), if_pos h3]
  · intro h1 h2 h3 h4
    unfold handleHello
    rw [if_pos h1, if_neg (by simp [h2]), if_neg (by simp [h3, h4])]

/-- Witness for C6: the amended hello dispatch evaluated on a valid Hello
(callback with its payload) and on a Ping (rejected). -/
theorem claim_C6_witness :
    handleHello (writeHelloMessage [97]) = HelloDispatch.callback [97] ∧
    handleHello
        { sequence := -1, fragment := 0, ofFragments := 1, messageType := Ping,
          headersLength := 0, payloadLength := 0, payload := [] } =
      HelloDispatch.error "expected hello" :=
  ⟨(claim_C6_hello_dispatch_amended (writeHelloMessage [97])).2.2.2 rfl rfl rfl rfl,
   (claim_C6_hello_dispatch_amended _).1 (by decide)⟩

/-- Claim C7: there is a buffer of at least 15 bytes with valid magic and
zero headers length whose declared payload length exceeds the bytes
remaining after the header, and on it `decodeMessage` does not return a
protocol error: the payload slice is out of range (a Go runtime panic), so
decoding is not total on such inputs. -/
theorem claim_C7_decode_panics_on_overlong_payload_field :
    ∃ b : List Nat, 15 ≤ b.length ∧ b.take 4 = magicV1 ∧ headersField b = 0 ∧
      b.length - 15 < payloadField b ∧ decodeMessage b = DecodeResult.panic :=
  ⟨[1, 2, 2, 0, 0, 0, 0, 0, 0, 1, 1, 0, 0, 1, 0], by decide⟩

/-- Claim C8: encoding the Hello message carrying the identity token "abc"
produces exactly the 18-byte frame
`01 02 02 00 FF FF FF FF 00 01 00 00 00 03 00 61 62 63`. -/
theorem claim_C8_hello_abc_encoding :
    encodeMessage (writeHelloMessage [0x61, 0x62, 0x63]) =
      Except.ok
        [0x01, 0x02, 0x02, 0x00, 0xFF, 0xFF, 0xFF, 0xFF, 0x00, 0x01, 0x00,
          0x00, 0x00, 0x03, 0x00, 0x61, 0x62, 0x63] :=
  rfl

/-- Claim C9: when a command implements optional validation and validation
fails with `e`, `Dispatch` returns `e` with an empty interaction trace: the
command is never encoded, never applied to the raft log, and never
forwarded to a remote leader, whatever the node's leadership state and the
oracle outcomes. -/
theorem claim_C9_validation_short_circuits (w : DispatchWorld) (cmd : Command)
    (e : String) (hv : cmd.validatable = true) (hr : cmd.validateResult = some e) :
    Dispatch w cmd = (Except.error (DispatchError.validationFailed e), []) := by
  simp [Dispatch, hv, hr]

/-- Witness for C9: the short-circuit evaluated on a leader node with a
command whose validation fails. -/
theorem claim_C9_witness :
    Dispatch ⟨true, Except.ok (), Except.ok ReplyType.successResponse, Except.ok ()⟩
        ⟨true, some "bad command", Except.ok [1]⟩ =
      (Except.error (DispatchError.validationFailed "bad command"), []) :=
  claim_C9_validation_short_circuits _ _ _ rfl rfl

/-- Claim C10: on a handler whose channel name matches the supplied source
matcher, `DisableTracing` (i.e. `ToggleTracing` with `enable = false`)
leaves `IsEnabled()` returning `true`, because the internal `enable` method
stores `true` regardless of its argument. -/
theorem claim_C10_disable_leaves_enabled (h : ChannelPeekHandler)
    (matcher : String → Bool) (hm : matcher h.name = true) :
    IsEnabled (DisableTracing h SourceType.pipe matcher).1 = true := by
  simp [DisableTracing, ToggleTracing, enable, IsEnabled, hm]

/-- Witness for C10: disabling tracing on a matched, currently-enabled
handler leaves it enabled. -/
theorem claim_C10_witness :
    IsEnabled (DisableTracing ⟨"ch1", true⟩ SourceType.pipe (fun _ => true)).1 = true :=
  claim_C10_disable_leaves_enabled ⟨"ch1", true⟩ (fun _ => true) rfl
